import Mathlib

/-!
# authService/auth.go : the WebAuthn ceremony handlers

A shallow embedding of the four handlers of `AuthServiceServer`
(`BeginRegistration`, `FinishRegistration`, `BeginLogin`, `FinishLogin`) and of
`generateChallenge`.

Everything the handlers call outside auth.go (crypto/rand, the gorm connection,
`db.User` methods, `jwtService`, the package helpers `parseAttestationObject`,
`extractSignCount`, `extractAAGUID`, `verifySignature`) is a field of `Deps`: the
theorems hold for every behaviour of these collaborators.  Calls that may touch
ambient state (entropy, database, token store) are state transformers on an
arbitrary state type; every call is appended, with its arguments and results, to
the event log of the `World` in the order auth.go performs it.
-/

namespace AuthService

/-! ## Data model -/

/-- Go `[]byte`: a list of byte values. -/
abbrev Bytes := List Nat

/-- Go `error` values, identified by their message. -/
abbrev GoError := String

/-- The user identifier of the external `db` package (`db.User.UserId`, the value
returned by `CreateWebAuthnAdmin` and taken by the `jwtService` functions). -/
abbrev Identity := String

/-- The fields of `db.User` that the WebAuthn handlers read or write. -/
structure DbUser where
  UserId : Identity
  CredentialID : Bytes
  PublicKey : Bytes
  SignCount : Nat
  AuthenticatorAAGUID : Bytes
deriving DecidableEq, Repr

/-- The connect error codes used by auth.go. -/
inductive Code where
  | InvalidArgument
  | NotFound
  | Internal
  | Unauthenticated
deriving DecidableEq, Repr

/-- The value built by `connect.NewError(code, err)`. -/
structure ConnectError where
  code : Code
  err : GoError
deriving DecidableEq, Repr

/-- The message `authv1.BeginRegistrationRequest`; the handler reads none of its fields. -/
structure BeginRegistrationRequest where
  raw : Bytes
deriving DecidableEq, Repr

/-- The message `authv1.BeginLoginRequest`; the handler reads none of its fields. -/
structure BeginLoginRequest where
  raw : Bytes
deriving DecidableEq, Repr

structure BeginRegistrationResponse where
  Challenge : Bytes
  RpId : String
deriving DecidableEq, Repr

structure BeginLoginResponse where
  Challenge : Bytes
  RpId : String
deriving DecidableEq, Repr

structure FinishRegistrationRequest where
  CredentialId : Bytes
  AttestationObject : Bytes
  ClientDataJson : Bytes
deriving DecidableEq, Repr

structure FinishRegistrationResponse where
  AccessToken : String
deriving DecidableEq, Repr

structure FinishLoginRequest where
  CredentialId : Bytes
  AuthenticatorData : Bytes
  ClientDataJson : Bytes
  Signature : Bytes
deriving DecidableEq, Repr

structure FinishLoginResponse where
  AccessToken : String
deriving DecidableEq, Repr

/-- The value `connect.Response[T]`: the message and the response headers. -/
structure Response (α : Type) where
  Msg : α
  Header : List (String × String)
deriving DecidableEq, Repr

/-- The function `connect.NewResponse(msg)`: the message with no header set. -/
def NewResponse {α : Type} (msg : α) : Response α :=
  { Msg := msg, Header := [] }

/-- The call `res.Header().Set(key, value)`: the entry for `key` is replaced. -/
def Response.headerSet {α : Type} (res : Response α) (key value : String) : Response α :=
  { res with Header := res.Header.filter (fun kv => kv.1 != key) ++ [(key, value)] }

/-- The call `res.Header().Get(key)`. -/
def Response.headerGet {α : Type} (res : Response α) (key : String) : Option String :=
  (res.Header.find? (fun kv => kv.1 == key)).map Prod.snd

/-! ## Collaborators and the event log -/

/-- One argument of a `fmt.Println` call. -/
inductive Printed where
  | str (s : String)
  | bytes (b : Bytes)
  | err (e : GoError)
deriving DecidableEq, Repr

/-- One call made by a handler, with its arguments and what it returned. -/
inductive Event where
  | println (args : List Printed)
  | randRead (len : Nat) (written : Bytes) (err : Option GoError)
  | dbFirst (credentialID : Bytes) (user : DbUser) (err : Option GoError)
  | parseAttestationObject (attestationObject authenticatorData publicKey : Bytes)
      (err : Option GoError)
  | extractSignCount (authenticatorData : Bytes) (signCount : Nat)
  | extractAAGUID (authenticatorData : Bytes) (aaguid : Bytes)
  | verifySignature (publicKey authenticatorData clientDataJSON signature : Bytes)
      (isValid : Bool) (err : Option GoError)
  | createWebAuthnAdmin (user : DbUser) (id : Identity) (err : Option GoError)
  | loginAsWebAuthAdmin (receiver : DbUser) (userId : Identity) (err : Option GoError)
  | revokeJWTByUserId (userId : Identity)
  | generateJWTPair (userId : Identity) (token : String) (err : Option GoError)
  | getConnectRpcAccessTokenCookie (token cookie : String)
deriving DecidableEq, Repr

/-- The collaborators of auth.go, over an arbitrary ambient state `σ`.

* `randRead n` is `rand.Read` on a buffer of length `n`: the bytes the source
  writes and its error.
* `dbFirstByCredentialID c` is
  `db.DBConn.Where("credential_id = ?", c).First(&user).Error` together with the
  `user` it fills.
* `parseAttestationObject`, `extractSignCount`, `extractAAGUID`, `verifySignature`
  are the package helpers (not part of auth.go), functions of their arguments.
* `createWebAuthnAdmin`, `loginAsWebAuthAdmin` are the `db.User` methods; the
  receiver is passed by value.
* `revokeJWTByUserId`, `generateJWTPair`, `getConnectRpcAccessTokenCookie` are the
  `jwtService` functions. -/
structure Deps (σ : Type) where
  randRead : Nat → σ → (Bytes × Option GoError) × σ
  dbFirstByCredentialID : Bytes → σ → (DbUser × Option GoError) × σ
  parseAttestationObject : Bytes → Bytes × Bytes × Option GoError
  extractSignCount : Bytes → Nat
  extractAAGUID : Bytes → Bytes
  verifySignature : Bytes → Bytes → Bytes → Bytes → Bool × Option GoError
  createWebAuthnAdmin : DbUser → σ → (Identity × Option GoError) × σ
  loginAsWebAuthAdmin : DbUser → Identity → σ → Option GoError × σ
  revokeJWTByUserId : Identity → σ → σ
  generateJWTPair : Identity → σ → (String × Option GoError) × σ
  getConnectRpcAccessTokenCookie : String → String

/-- The ambient state together with the calls made so far, oldest first. -/
structure World (σ : Type) where
  st : σ
  log : List Event
deriving DecidableEq, Repr

variable {σ : Type}

/-- Append one event to the log. -/
def World.record (w : World σ) (e : Event) : World σ :=
  { w with log := w.log ++ [e] }

/-- The call `fmt.Println(args...)`. -/
def println (args : List Printed) (w : World σ) : World σ :=
  w.record (Event.println args)

/-- The call `rand.Read(b)` with `len(b) = n`. -/
def callRandRead (d : Deps σ) (n : Nat) (w : World σ) :
    (Bytes × Option GoError) × World σ :=
  let r := d.randRead n w.st
  (r.1, { st := r.2, log := w.log ++ [Event.randRead n r.1.1 r.1.2] })

/-- The query `db.DBConn.Where("credential_id = ?", c).First(&user)`. -/
def callDbFirst (d : Deps σ) (c : Bytes) (w : World σ) :
    (DbUser × Option GoError) × World σ :=
  let r := d.dbFirstByCredentialID c w.st
  (r.1, { st := r.2, log := w.log ++ [Event.dbFirst c r.1.1 r.1.2] })

/-- The call `parseAttestationObject(attestationObject)`. -/
def callParseAttestationObject (d : Deps σ) (ao : Bytes) (w : World σ) :
    (Bytes × Bytes × Option GoError) × World σ :=
  let r := d.parseAttestationObject ao
  (r, w.record (Event.parseAttestationObject ao r.1 r.2.1 r.2.2))

/-- The call `extractSignCount(authenticatorData)`. -/
def callExtractSignCount (d : Deps σ) (ad : Bytes) (w : World σ) : Nat × World σ :=
  (d.extractSignCount ad, w.record (Event.extractSignCount ad (d.extractSignCount ad)))

/-- The call `extractAAGUID(authenticatorData)`. -/
def callExtractAAGUID (d : Deps σ) (ad : Bytes) (w : World σ) : Bytes × World σ :=
  (d.extractAAGUID ad, w.record (Event.extractAAGUID ad (d.extractAAGUID ad)))

/-- The call `verifySignature(publicKey, authenticatorData, clientDataJSON, signature)`. -/
def callVerifySignature (d : Deps σ) (pk ad cdj sig : Bytes) (w : World σ) :
    (Bool × Option GoError) × World σ :=
  let r := d.verifySignature pk ad cdj sig
  (r, w.record (Event.verifySignature pk ad cdj sig r.1 r.2))

/-- The call `user.CreateWebAuthnAdmin(&user)`. -/
def callCreateWebAuthnAdmin (d : Deps σ) (user : DbUser) (w : World σ) :
    (Identity × Option GoError) × World σ :=
  let r := d.createWebAuthnAdmin user w.st
  (r.1, { st := r.2, log := w.log ++ [Event.createWebAuthnAdmin user r.1.1 r.1.2] })

/-- The call `user.LoginAsWebAuthAdmin(userId)`. -/
def callLoginAsWebAuthAdmin (d : Deps σ) (user : DbUser) (userId : Identity) (w : World σ) :
    Option GoError × World σ :=
  let r := d.loginAsWebAuthAdmin user userId w.st
  (r.1, { st := r.2, log := w.log ++ [Event.loginAsWebAuthAdmin user userId r.1] })

/-- The call `jwtService.RevokeJWTByUserId(userId)`. -/
def callRevokeJWTByUserId (d : Deps σ) (userId : Identity) (w : World σ) : World σ :=
  { st := d.revokeJWTByUserId userId w.st, log := w.log ++ [Event.revokeJWTByUserId userId] }

/-- The call `jwtService.GenerateJWTPair(userId)`. -/
def callGenerateJWTPair (d : Deps σ) (userId : Identity) (w : World σ) :
    (String × Option GoError) × World σ :=
  let r := d.generateJWTPair userId w.st
  (r.1, { st := r.2, log := w.log ++ [Event.generateJWTPair userId r.1.1 r.1.2] })

/-- The call `jwtService.GetConnectRpcAccessTokenCookie(token)`. -/
def callGetCookie (d : Deps σ) (token : String) (w : World σ) : String × World σ :=
  (d.getConnectRpcAccessTokenCookie token,
    w.record (Event.getConnectRpcAccessTokenCookie token (d.getConnectRpcAccessTokenCookie token)))

/-! ## The functions of auth.go -/

/-- The effect of `rand.Read` on the buffer: the bytes written overwrite the
buffer from its start, the length of the buffer is the length of the slice. -/
def writeInto (buf written : Bytes) : Bytes :=
  written.take buf.length ++ buf.drop written.length

/-- The function `generateChallenge`: `make([]byte, 32)`, `rand.Read`, return both. -/
def generateChallenge (d : Deps σ) (w : World σ) : (Bytes × Option GoError) × World σ :=
  let challenge : Bytes := List.replicate 32 0
  let r := callRandRead d challenge.length w
  ((writeInto challenge r.1.1, r.1.2), r.2)

/-- The handler `AuthServiceServer.BeginRegistration`. -/
def BeginRegistration (d : Deps σ) (_req : BeginRegistrationRequest) (w : World σ) :
    Except ConnectError (Response BeginRegistrationResponse) × World σ :=
  let r := generateChallenge d w
  match r.1.2 with
  | some err => (Except.error { code := Code.Internal, err := err }, r.2)
  | none =>
    let resp : BeginRegistrationResponse := { Challenge := r.1.1, RpId := "localhost" }
    (Except.ok (NewResponse resp), r.2)

/-- The handler `AuthServiceServer.BeginLogin`. -/
def BeginLogin (d : Deps σ) (_req : BeginLoginRequest) (w : World σ) :
    Except ConnectError (Response BeginLoginResponse) × World σ :=
  let r := generateChallenge d w
  match r.1.2 with
  | some err => (Except.error { code := Code.Internal, err := err }, r.2)
  | none =>
    let resp : BeginLoginResponse := { Challenge := r.1.1, RpId := "localhost" }
    (Except.ok (NewResponse resp), r.2)

/-- The handler `AuthServiceServer.FinishRegistration`.  `req.ClientDataJson` is
not read (its use is commented out in the source). -/
def FinishRegistration (d : Deps σ) (req : FinishRegistrationRequest) (w : World σ) :
    Except ConnectError (Response FinishRegistrationResponse) × World σ :=
  let w0 := println [Printed.str "FinishRegistration"] w
  let w1 := println [Printed.bytes req.AttestationObject] w0
  let credentialID := req.CredentialId
  let attestationObject := req.AttestationObject
  let p := callParseAttestationObject d attestationObject w1
  let authenticatorData := p.1.1
  let publicKey := p.1.2.1
  match p.1.2.2 with
  | some _ =>
    (Except.error { code := Code.InvalidArgument, err := "invalid attestation object" }, p.2)
  | none =>
    let sc := callExtractSignCount d authenticatorData p.2
    let ag := callExtractAAGUID d authenticatorData sc.2
    let user : DbUser :=
      { UserId := "",
        CredentialID := credentialID,
        PublicKey := publicKey,
        SignCount := sc.1,
        AuthenticatorAAGUID := ag.1 }
    let c := callCreateWebAuthnAdmin d user ag.2
    match c.1.2 with
    | some err => (Except.error { code := Code.Internal, err := err }, c.2)
    | none =>
      let id := c.1.1
      let g := callGenerateJWTPair d id c.2
      match g.1.2 with
      | some err =>
        let w2 := println [Printed.str "Error generating JWT:", Printed.err err] g.2
        (Except.error { code := Code.Internal, err := err }, w2)
      | none =>
        let token := g.1.1
        let w2 := println [Printed.str token] g.2
        let res := NewResponse ({ AccessToken := token } : FinishRegistrationResponse)
        let ck := callGetCookie d token w2
        (Except.ok (res.headerSet "Set-Cookie" ck.1), ck.2)

/-- The handler `AuthServiceServer.FinishLogin`.  The comparison of the new sign
count with `user.SignCount` is commented out in the source and so is absent. -/
def FinishLogin (d : Deps σ) (req : FinishLoginRequest) (w : World σ) :
    Except ConnectError (Response FinishLoginResponse) × World σ :=
  let credentialID := req.CredentialId
  let authenticatorData := req.AuthenticatorData
  let clientDataJSON := req.ClientDataJson
  let signature := req.Signature
  let q := callDbFirst d credentialID w
  let user := q.1.1
  match q.1.2 with
  | some _ => (Except.error { code := Code.NotFound, err := "user not found" }, q.2)
  | none =>
    let v := callVerifySignature d user.PublicKey authenticatorData clientDataJSON signature q.2
    let isValid := v.1.1
    if !isValid || v.1.2 != none then
      (Except.error { code := Code.Unauthenticated, err := "invalid signature" }, v.2)
    else
      let l := callLoginAsWebAuthAdmin d user user.UserId v.2
      match l.1 with
      | some err => (Except.error { code := Code.Internal, err := err }, l.2)
      | none =>
        let w1 := callRevokeJWTByUserId d user.UserId l.2
        let g := callGenerateJWTPair d user.UserId w1
        match g.1.2 with
        | some err =>
          let w2 := println [Printed.str "Error generating JWT:", Printed.err err] g.2
          (Except.error { code := Code.Internal, err := err }, w2)
        | none =>
          let token := g.1.1
          let res := NewResponse ({ AccessToken := token } : FinishLoginResponse)
          let ck := callGetCookie d token g.2
          (Except.ok (res.headerSet "Set-Cookie" ck.1), ck.2)

/-! ## A concrete set of collaborators

An in-memory credential table and token table, used to run the handlers on
concrete requests. -/

/-- The ambient state of the concrete collaborators: the stored credentials, the
live tokens, and two switches that make the entropy source and the token
signer fail. -/
structure DemoState where
  users : List DbUser
  tokens : List (Identity × String)
  entropyFails : Bool
  mintFails : Bool
deriving DecidableEq, Repr

/-- The zero value of `db.User`. -/
def zeroUser : DbUser :=
  { UserId := "", CredentialID := [], PublicKey := [], SignCount := 0, AuthenticatorAAGUID := [] }

/-- Big-endian value of a byte string. -/
def beValue (bs : Bytes) : Nat :=
  bs.foldl (fun acc b => acc * 256 + b) 0

/-- Concrete collaborators.  Authenticator data is laid out as in WebAuthn (32
bytes of RP ID hash, one flag byte, a 4-byte big-endian counter, then the
AAGUID); the attestation object is the authenticator data (53 bytes) followed by
the public key; a signature is valid when it is the public key followed by the
signed data. -/
def demoDeps : Deps DemoState where
  randRead := fun n s =>
    if s.entropyFails then (([], some "entropy source unavailable"), s)
    else (((List.range n).map (fun i => i + 1), none), s)
  dbFirstByCredentialID := fun c s =>
    match s.users.find? (fun u => u.CredentialID == c) with
    | some u => ((u, none), s)
    | none => ((zeroUser, some "record not found"), s)
  parseAttestationObject := fun ao =>
    if ao.length < 53 then ([], [], some "attestation object too short")
    else (ao.take 53, ao.drop 53, none)
  extractSignCount := fun ad => beValue ((ad.drop 33).take 4)
  extractAAGUID := fun ad => (ad.drop 37).take 16
  verifySignature := fun pk ad cdj sig => (sig == pk ++ ad ++ cdj, none)
  createWebAuthnAdmin := fun u s =>
    if s.users.any (fun x => x.CredentialID == u.CredentialID) then
      (("", some "duplicate credential"), s)
    else
      (("user-1", none), { s with users := s.users ++ [{ u with UserId := "user-1" }] })
  loginAsWebAuthAdmin := fun _ id s =>
    if s.users.any (fun x => x.UserId == id) then (none, s)
    else (some "user not found", s)
  revokeJWTByUserId := fun id s => { s with tokens := s.tokens.filter (fun t => t.1 != id) }
  generateJWTPair := fun id s =>
    if s.mintFails then (("", some "signing key unavailable"), s)
    else (("jwt-for-" ++ id, none), { s with tokens := s.tokens ++ [(id, "jwt-for-" ++ id)] })
  getConnectRpcAccessTokenCookie := fun t => "access_token=" ++ t

/-- An empty store with working entropy and signer, and no call made yet. -/
def emptyWorld : World DemoState :=
  { st := { users := [], tokens := [], entropyFails := false, mintFails := false }, log := [] }

/-- An empty store whose entropy source fails. -/
def noEntropyWorld : World DemoState :=
  { st := { users := [], tokens := [], entropyFails := true, mintFails := false }, log := [] }

/-- An empty store whose token signer fails. -/
def noSignerWorld : World DemoState :=
  { st := { users := [], tokens := [], entropyFails := false, mintFails := true }, log := [] }

/-- Authenticator data with flag byte 0x41, the given counter byte and AAGUID 9,9,...  -/
def demoAuthData (counter : Nat) : Bytes :=
  List.replicate 32 7 ++ [65] ++ [0, 0, 0, counter] ++ List.replicate 16 9

/-- A registration request for credential `[1, 2, 3]` with public key `[4, 5]`,
counter 0 and an empty client data. -/
def demoRegistration : FinishRegistrationRequest :=
  { CredentialId := [1, 2, 3], AttestationObject := demoAuthData 0 ++ [4, 5], ClientDataJson := [] }

/-- The credential stored by `demoRegistration`, with stored counter `n`. -/
def demoUser (n : Nat) : DbUser :=
  { UserId := "user-1", CredentialID := [1, 2, 3], PublicKey := [4, 5], SignCount := n,
    AuthenticatorAAGUID := List.replicate 16 9 }

/-- A store holding `demoUser 5`, with one live token for it. -/
def loginWorld : World DemoState :=
  { st := { users := [demoUser 5], tokens := [("user-1", "old-token")], entropyFails := false,
            mintFails := false },
    log := [] }

/-- A login request for credential `[1, 2, 3]` reporting counter `counter`, with
a valid signature. -/
def demoLogin (counter : Nat) : FinishLoginRequest :=
  { CredentialId := [1, 2, 3], AuthenticatorData := demoAuthData counter, ClientDataJson := [8],
    Signature := [4, 5] ++ demoAuthData counter ++ [8] }

/-- A login request for the stored credential whose signature does not match. -/
def demoBadLogin : FinishLoginRequest :=
  { CredentialId := [1, 2, 3], AuthenticatorData := demoAuthData 6, ClientDataJson := [8],
    Signature := [0] }

/-- The state of `loginWorld` after a successful login: the old token is revoked
and the fresh one is live. -/
def loggedInState : DemoState :=
  { users := [demoUser 5], tokens := [("user-1", "jwt-for-user-1")], entropyFails := false,
    mintFails := false }

/-- A store holding `demoUser 5` and one live token, whose token signer fails. -/
def loginNoSignerWorld : World DemoState :=
  { st := { users := [demoUser 5], tokens := [("user-1", "old-token")], entropyFails := false,
            mintFails := true },
    log := [] }

/-- A variant of `demoDeps` whose `LoginAsWebAuthAdmin` always fails. -/
def demoDepsNoLogin : Deps DemoState :=
  { demoDeps with loginAsWebAuthAdmin := fun _ _ s => (some "login refused", s) }

/-- The record that `demoRegistration` submits for creation. -/
def demoSubmitted : DbUser :=
  { UserId := "", CredentialID := [1, 2, 3], PublicKey := [4, 5], SignCount := 0,
    AuthenticatorAAGUID := List.replicate 16 9 }

/-- The state of `emptyWorld` after `demoRegistration` has completed. -/
def registeredState : DemoState :=
  { users := [demoUser 0], tokens := [("user-1", "jwt-for-user-1")], entropyFails := false,
    mintFails := false }

/-- A registration request whose attestation object is too short to parse. -/
def demoShortRegistration : FinishRegistrationRequest :=
  { CredentialId := [1, 2, 3], AttestationObject := [1, 2], ClientDataJson := [] }

/-- A store that already holds credential `[1, 2, 3]`. -/
def takenWorld : World DemoState :=
  { st := { users := [demoUser 0], tokens := [], entropyFails := false, mintFails := false },
    log := [] }

/-! ## Challenge generation -/

theorem writeInto_length (buf written : Bytes) : (writeInto buf written).length = buf.length := by
  unfold writeInto
  simp only [List.length_append, List.length_take, List.length_drop]
  omega

theorem writeInto_zeros (n : Nat) (written : Bytes) :
    writeInto (List.replicate n 0) written
      = written.take n ++ List.replicate (n - written.length) 0 := by
  unfold writeInto
  simp

theorem generateChallenge_fst (d : Deps σ) (w : World σ) :
    (generateChallenge d w).1
      = (writeInto (List.replicate 32 0) (d.randRead 32 w.st).1.1, (d.randRead 32 w.st).1.2) := by
  simp [generateChallenge, callRandRead]

theorem generateChallenge_snd (d : Deps σ) (w : World σ) :
    (generateChallenge d w).2
      = { st := (d.randRead 32 w.st).2,
          log := w.log ++ [Event.randRead 32 (d.randRead 32 w.st).1.1 (d.randRead 32 w.st).1.2] } := by
  simp [generateChallenge, callRandRead]

/-- C7: whatever the entropy source returns, `generateChallenge` returns a slice of
length exactly 32 whose leading bytes are the bytes the source wrote (the rest
keeps the zeros of `make`), together with the error of the source; and when the
source reports no error, `BeginRegistration` and `BeginLogin` both succeed with a
response whose `Challenge` is that 32-byte value and whose `RpId` is
"localhost". -/
theorem generateChallenge_32_bytes (d : Deps σ) (w : World σ) :
    (generateChallenge d w).1.1.length = 32 ∧
    (generateChallenge d w).1.1
      = (d.randRead 32 w.st).1.1.take 32
          ++ List.replicate (32 - (d.randRead 32 w.st).1.1.length) 0 ∧
    (generateChallenge d w).1.2 = (d.randRead 32 w.st).1.2 ∧
    ((d.randRead 32 w.st).1.2 = none →
      ∀ (r1 : BeginRegistrationRequest) (r2 : BeginLoginRequest),
        (BeginRegistration d r1 w).1
          = Except.ok { Msg := { Challenge := (generateChallenge d w).1.1, RpId := "localhost" },
                        Header := [] } ∧
        (BeginLogin d r2 w).1
          = Except.ok { Msg := { Challenge := (generateChallenge d w).1.1, RpId := "localhost" },
                        Header := [] }) := by
  refine ⟨?_, ?_, ?_, ?_⟩
  · rw [generateChallenge_fst]
    simp [writeInto_length]
  · rw [generateChallenge_fst]
    exact writeInto_zeros 32 _
  · rw [generateChallenge_fst]
  · intro h r1 r2
    have hg : (generateChallenge d w).1.2 = none := by rw [generateChallenge_fst]; exact h
    constructor
    · simp only [BeginRegistration, hg, NewResponse]
    · simp only [BeginLogin, hg, NewResponse]

/-- Witness for C7: with the concrete collaborators on the empty store the
entropy source succeeds and both handlers return the 32 bytes it wrote. -/
theorem generateChallenge_32_bytes_witness :
    (demoDeps.randRead 32 emptyWorld.st).1.2 = none ∧
    (generateChallenge demoDeps emptyWorld).1.1 = (List.range 32).map (fun i => i + 1) ∧
    (BeginRegistration demoDeps { raw := [] } emptyWorld).1
      = Except.ok { Msg := { Challenge := (generateChallenge demoDeps emptyWorld).1.1,
                             RpId := "localhost" },
                    Header := [] } ∧
    (BeginLogin demoDeps { raw := [] } emptyWorld).1
      = Except.ok { Msg := { Challenge := (generateChallenge demoDeps emptyWorld).1.1,
                             RpId := "localhost" },
                    Header := [] } :=
  ⟨rfl, rfl,
    ((generateChallenge_32_bytes demoDeps emptyWorld).2.2.2 rfl { raw := [] } { raw := [] }).1,
    ((generateChallenge_32_bytes demoDeps emptyWorld).2.2.2 rfl { raw := [] } { raw := [] }).2⟩

/-- C8: `BeginRegistration` and `BeginLogin` fail exactly when `rand.Read` fails.
When it returns an error `e`, each returns the Internal error wrapping `e` and no
response; when it returns no error each returns a response; in both cases the
handler has made exactly one call, the single `rand.Read` (nothing is retried or
substituted). -/
theorem begin_fails_iff_entropy_fails (d : Deps σ) (r1 : BeginRegistrationRequest)
    (r2 : BeginLoginRequest) (w : World σ) :
    (∀ e, (d.randRead 32 w.st).1.2 = some e →
      (BeginRegistration d r1 w).1 = Except.error { code := Code.Internal, err := e } ∧
      (BeginLogin d r2 w).1 = Except.error { code := Code.Internal, err := e }) ∧
    ((d.randRead 32 w.st).1.2 = none →
      (∃ resp, (BeginRegistration d r1 w).1 = Except.ok resp) ∧
      (∃ resp, (BeginLogin d r2 w).1 = Except.ok resp)) ∧
    ((∃ ce, (BeginRegistration d r1 w).1 = Except.error ce) ↔ (d.randRead 32 w.st).1.2 ≠ none) ∧
    ((∃ ce, (BeginLogin d r2 w).1 = Except.error ce) ↔ (d.randRead 32 w.st).1.2 ≠ none) ∧
    (BeginRegistration d r1 w).2.log
      = w.log ++ [Event.randRead 32 (d.randRead 32 w.st).1.1 (d.randRead 32 w.st).1.2] ∧
    (BeginLogin d r2 w).2.log
      = w.log ++ [Event.randRead 32 (d.randRead 32 w.st).1.1 (d.randRead 32 w.st).1.2] := by
  have hg : (generateChallenge d w).1.2 = (d.randRead 32 w.st).1.2 := by
    rw [generateChallenge_fst]
  have hw := generateChallenge_snd d w
  cases hr : (d.randRead 32 w.st).1.2 with
  | none =>
    rw [hr] at hg
    simp [BeginRegistration, BeginLogin, hg, hw, hr]
  | some e =>
    rw [hr] at hg
    simp [BeginRegistration, BeginLogin, hg, hw, hr]

/-- Witness for C8: the failing entropy source makes both handlers return the
Internal error that wraps its error, the working one makes both succeed. -/
theorem begin_fails_iff_entropy_fails_witness :
    (demoDeps.randRead 32 noEntropyWorld.st).1.2 = some "entropy source unavailable" ∧
    ((BeginRegistration demoDeps { raw := [] } noEntropyWorld).1
        = Except.error { code := Code.Internal, err := "entropy source unavailable" } ∧
      (BeginLogin demoDeps { raw := [] } noEntropyWorld).1
        = Except.error { code := Code.Internal, err := "entropy source unavailable" }) ∧
    (demoDeps.randRead 32 emptyWorld.st).1.2 = none ∧
    ((∃ resp, (BeginRegistration demoDeps { raw := [] } emptyWorld).1 = Except.ok resp) ∧
      (∃ resp, (BeginLogin demoDeps { raw := [] } emptyWorld).1 = Except.ok resp)) :=
  ⟨rfl,
    (begin_fails_iff_entropy_fails demoDeps { raw := [] } { raw := [] } noEntropyWorld).1
      "entropy source unavailable" rfl,
    rfl,
    (begin_fails_iff_entropy_fails demoDeps { raw := [] } { raw := [] } emptyWorld).2.1 rfl⟩

/-! ## FinishLogin -/

/-- C2: when the credential lookup returns an error, `FinishLogin` returns the
NotFound error "user not found" and no response, and the lookup is the only call
it has made: the signature verifier, `LoginAsWebAuthAdmin`, `RevokeJWTByUserId`
and `GenerateJWTPair` are not called and the state is the one the lookup left. -/
theorem finishLogin_unknown_credential (d : Deps σ) (req : FinishLoginRequest) (w : World σ)
    (user : DbUser) (e : GoError) (s1 : σ)
    (hq : d.dbFirstByCredentialID req.CredentialId w.st = ((user, some e), s1)) :
    (FinishLogin d req w).1 = Except.error { code := Code.NotFound, err := "user not found" } ∧
    (FinishLogin d req w).2
      = { st := s1, log := w.log ++ [Event.dbFirst req.CredentialId user (some e)] } := by
  simp [FinishLogin, callDbFirst, hq]

/-- Witness for C2: a login on the empty store. -/
theorem finishLogin_unknown_credential_witness :
    demoDeps.dbFirstByCredentialID (demoLogin 1).CredentialId emptyWorld.st
      = ((zeroUser, some "record not found"), emptyWorld.st) ∧
    (FinishLogin demoDeps (demoLogin 1) emptyWorld).1
      = Except.error { code := Code.NotFound, err := "user not found" } ∧
    (FinishLogin demoDeps (demoLogin 1) emptyWorld).2
      = { st := emptyWorld.st,
          log := emptyWorld.log
            ++ [Event.dbFirst (demoLogin 1).CredentialId zeroUser (some "record not found")] } :=
  ⟨rfl, finishLogin_unknown_credential demoDeps (demoLogin 1) emptyWorld zeroUser
    "record not found" emptyWorld.st rfl⟩

/-- C3: when the credential is found but `verifySignature` returns false or
returns an error, `FinishLogin` returns the Unauthenticated error "invalid
signature" (the same value for every cause) and no response; the only calls made
are the lookup and the verification, so `LoginAsWebAuthAdmin`,
`RevokeJWTByUserId` and `GenerateJWTPair` are never called and the state is the
one the lookup left. -/
theorem finishLogin_invalid_signature (d : Deps σ) (req : FinishLoginRequest) (w : World σ)
    (user : DbUser) (s1 : σ) (isValid : Bool) (verr : Option GoError)
    (hq : d.dbFirstByCredentialID req.CredentialId w.st = ((user, none), s1))
    (hv : d.verifySignature user.PublicKey req.AuthenticatorData req.ClientDataJson
            req.Signature = (isValid, verr))
    (hfail : isValid = false ∨ verr ≠ none) :
    (FinishLogin d req w).1
      = Except.error { code := Code.Unauthenticated, err := "invalid signature" } ∧
    (FinishLogin d req w).2
      = { st := s1,
          log := w.log ++
            [Event.dbFirst req.CredentialId user none,
             Event.verifySignature user.PublicKey req.AuthenticatorData req.ClientDataJson
               req.Signature isValid verr] } := by
  rcases hfail with h | h
  · subst h
    simp [FinishLogin, callDbFirst, hq, callVerifySignature, hv, World.record]
  · simp [FinishLogin, callDbFirst, hq, callVerifySignature, hv, World.record, h]

/-- Witness for C3: a wrong signature for a stored credential. -/
theorem finishLogin_invalid_signature_witness :
    demoDeps.dbFirstByCredentialID demoBadLogin.CredentialId loginWorld.st
      = ((demoUser 5, none), loginWorld.st) ∧
    demoDeps.verifySignature (demoUser 5).PublicKey demoBadLogin.AuthenticatorData
      demoBadLogin.ClientDataJson demoBadLogin.Signature = (false, none) ∧
    (FinishLogin demoDeps demoBadLogin loginWorld).1
      = Except.error { code := Code.Unauthenticated, err := "invalid signature" } ∧
    (FinishLogin demoDeps demoBadLogin loginWorld).2
      = { st := loginWorld.st,
          log := loginWorld.log ++
            [Event.dbFirst demoBadLogin.CredentialId (demoUser 5) none,
             Event.verifySignature (demoUser 5).PublicKey demoBadLogin.AuthenticatorData
               demoBadLogin.ClientDataJson demoBadLogin.Signature false none] } :=
  ⟨rfl, rfl,
    finishLogin_invalid_signature demoDeps demoBadLogin loginWorld (demoUser 5) loginWorld.st
      false none rfl rfl (Or.inl rfl)⟩

/-- C1: when the credential is found, `verifySignature` returns (true, no error)
and `LoginAsWebAuthAdmin` succeeds, the calls of `FinishLogin` are, in order: the
lookup, the verification, `LoginAsWebAuthAdmin`, `RevokeJWTByUserId` for the
looked-up user's `UserId`, then `GenerateJWTPair` for that same `UserId` (run on
the state that the revocation produced).  When minting succeeds the response
carries exactly the minted token as `AccessToken` and its Set-Cookie header is
the cookie computed from that token. -/
theorem finishLogin_revokes_then_mints (d : Deps σ) (req : FinishLoginRequest) (w : World σ)
    (user : DbUser) (s1 s2 s3 : σ) (token : String) (gerr : Option GoError)
    (hq : d.dbFirstByCredentialID req.CredentialId w.st = ((user, none), s1))
    (hv : d.verifySignature user.PublicKey req.AuthenticatorData req.ClientDataJson
            req.Signature = (true, none))
    (hl : d.loginAsWebAuthAdmin user user.UserId s1 = (none, s2))
    (hg : d.generateJWTPair user.UserId (d.revokeJWTByUserId user.UserId s2)
            = ((token, gerr), s3)) :
    (∃ rest, (FinishLogin d req w).2.log
        = w.log ++
            [Event.dbFirst req.CredentialId user none,
             Event.verifySignature user.PublicKey req.AuthenticatorData req.ClientDataJson
               req.Signature true none,
             Event.loginAsWebAuthAdmin user user.UserId none,
             Event.revokeJWTByUserId user.UserId,
             Event.generateJWTPair user.UserId token gerr] ++ rest ∧
        ∀ ev ∈ rest, (∀ u, ev ≠ Event.revokeJWTByUserId u) ∧
          (∀ u t x, ev ≠ Event.generateJWTPair u t x)) ∧
    (FinishLogin d req w).2.st = s3 ∧
    (gerr = none →
      (FinishLogin d req w).1
        = Except.ok { Msg := { AccessToken := token },
                      Header := [("Set-Cookie", d.getConnectRpcAccessTokenCookie token)] } ∧
      (∀ res, (FinishLogin d req w).1 = Except.ok res →
        res.Msg.AccessToken = token ∧
        res.headerGet "Set-Cookie" = some (d.getConnectRpcAccessTokenCookie token))) := by
  cases gerr with
  | some e =>
    refine ⟨⟨[Event.println [Printed.str "Error generating JWT:", Printed.err e]], ?_, ?_⟩,
      ?_, ?_⟩
    · simp [FinishLogin, callDbFirst, hq, callVerifySignature, hv, World.record,
        callLoginAsWebAuthAdmin, hl, callRevokeJWTByUserId, callGenerateJWTPair, hg, println]
    · simp
    · simp [FinishLogin, callDbFirst, hq, callVerifySignature, hv, World.record,
        callLoginAsWebAuthAdmin, hl, callRevokeJWTByUserId, callGenerateJWTPair, hg, println]
    · intro h
      cases h
  | none =>
    have hres : (FinishLogin d req w).1
        = Except.ok { Msg := { AccessToken := token },
                      Header := [("Set-Cookie", d.getConnectRpcAccessTokenCookie token)] } := by
      simp [FinishLogin, callDbFirst, hq, callVerifySignature, hv, World.record,
        callLoginAsWebAuthAdmin, hl, callRevokeJWTByUserId, callGenerateJWTPair, hg,
        callGetCookie, NewResponse, Response.headerSet]
    refine ⟨⟨[Event.getConnectRpcAccessTokenCookie token
        (d.getConnectRpcAccessTokenCookie token)], ?_, ?_⟩, ?_, ?_⟩
    · simp [FinishLogin, callDbFirst, hq, callVerifySignature, hv, World.record,
        callLoginAsWebAuthAdmin, hl, callRevokeJWTByUserId, callGenerateJWTPair, hg,
        callGetCookie]
    · simp
    · simp [FinishLogin, callDbFirst, hq, callVerifySignature, hv, World.record,
        callLoginAsWebAuthAdmin, hl, callRevokeJWTByUserId, callGenerateJWTPair, hg,
        callGetCookie]
    · intro _
      refine ⟨hres, ?_⟩
      intro res hr
      rw [hres] at hr
      cases hr
      simp [Response.headerGet]

/-- Witness for C1: a valid login for the stored credential revokes the old
token of "user-1", mints a fresh one and returns it. -/
theorem finishLogin_revokes_then_mints_witness :
    demoDeps.dbFirstByCredentialID (demoLogin 6).CredentialId loginWorld.st
      = ((demoUser 5, none), loginWorld.st) ∧
    demoDeps.verifySignature (demoUser 5).PublicKey (demoLogin 6).AuthenticatorData
      (demoLogin 6).ClientDataJson (demoLogin 6).Signature = (true, none) ∧
    demoDeps.loginAsWebAuthAdmin (demoUser 5) (demoUser 5).UserId loginWorld.st
      = (none, loginWorld.st) ∧
    demoDeps.generateJWTPair (demoUser 5).UserId
        (demoDeps.revokeJWTByUserId (demoUser 5).UserId loginWorld.st)
      = (("jwt-for-user-1", none), loggedInState) ∧
    (FinishLogin demoDeps (demoLogin 6) loginWorld).2.st = loggedInState ∧
    (FinishLogin demoDeps (demoLogin 6) loginWorld).1
      = Except.ok { Msg := { AccessToken := "jwt-for-user-1" },
                    Header := [("Set-Cookie",
                      demoDeps.getConnectRpcAccessTokenCookie "jwt-for-user-1")] } :=
  ⟨rfl, rfl, rfl, rfl,
    (finishLogin_revokes_then_mints demoDeps (demoLogin 6) loginWorld (demoUser 5)
      loginWorld.st loginWorld.st loggedInState "jwt-for-user-1" none rfl rfl rfl rfl).2.1,
    ((finishLogin_revokes_then_mints demoDeps (demoLogin 6) loginWorld (demoUser 5)
      loginWorld.st loginWorld.st loggedInState "jwt-for-user-1" none rfl rfl rfl rfl).2.2
        rfl).1⟩

/-- C10: once the lookup and the signature verification have passed, (a) if
`LoginAsWebAuthAdmin` fails with `e`, `FinishLogin` returns the Internal error
wrapping `e` with no response, and neither `RevokeJWTByUserId` nor
`GenerateJWTPair` has been called; (b) if `LoginAsWebAuthAdmin` succeeds and
`GenerateJWTPair` fails with `e`, `FinishLogin` returns the Internal error
wrapping `e` with no response although `RevokeJWTByUserId` has already been
applied to the user: the final state is the one left by the failed minting run
on the revoked state, and no token is returned. -/
theorem finishLogin_not_atomic (d : Deps σ) (req : FinishLoginRequest) (w : World σ)
    (user : DbUser) (s1 : σ)
    (hq : d.dbFirstByCredentialID req.CredentialId w.st = ((user, none), s1))
    (hv : d.verifySignature user.PublicKey req.AuthenticatorData req.ClientDataJson
            req.Signature = (true, none)) :
    (∀ (e : GoError) (s2 : σ), d.loginAsWebAuthAdmin user user.UserId s1 = (some e, s2) →
      (FinishLogin d req w).1 = Except.error { code := Code.Internal, err := e } ∧
      (FinishLogin d req w).2
        = { st := s2,
            log := w.log ++
              [Event.dbFirst req.CredentialId user none,
               Event.verifySignature user.PublicKey req.AuthenticatorData req.ClientDataJson
                 req.Signature true none,
               Event.loginAsWebAuthAdmin user user.UserId (some e)] }) ∧
    (∀ (e : GoError) (s2 s3 : σ) (token : String),
      d.loginAsWebAuthAdmin user user.UserId s1 = (none, s2) →
      d.generateJWTPair user.UserId (d.revokeJWTByUserId user.UserId s2)
        = ((token, some e), s3) →
      (FinishLogin d req w).1 = Except.error { code := Code.Internal, err := e } ∧
      (FinishLogin d req w).2
        = { st := s3,
            log := w.log ++
              [Event.dbFirst req.CredentialId user none,
               Event.verifySignature user.PublicKey req.AuthenticatorData req.ClientDataJson
                 req.Signature true none,
               Event.loginAsWebAuthAdmin user user.UserId none,
               Event.revokeJWTByUserId user.UserId,
               Event.generateJWTPair user.UserId token (some e),
               Event.println [Printed.str "Error generating JWT:", Printed.err e]] }) := by
  constructor
  · intro e s2 hl
    simp [FinishLogin, callDbFirst, hq, callVerifySignature, hv, World.record,
      callLoginAsWebAuthAdmin, hl]
  · intro e s2 s3 token hl hg
    simp [FinishLogin, callDbFirst, hq, callVerifySignature, hv, World.record,
      callLoginAsWebAuthAdmin, hl, callRevokeJWTByUserId, callGenerateJWTPair, hg, println]

/-- Witness for C10: with a failing signer the old token of "user-1" is gone and
no new one exists; with a failing `LoginAsWebAuthAdmin` the old token is still
there. -/
theorem finishLogin_not_atomic_witness :
    (demoDeps.dbFirstByCredentialID (demoLogin 6).CredentialId loginNoSignerWorld.st
        = ((demoUser 5, none), loginNoSignerWorld.st) ∧
      demoDeps.verifySignature (demoUser 5).PublicKey (demoLogin 6).AuthenticatorData
        (demoLogin 6).ClientDataJson (demoLogin 6).Signature = (true, none) ∧
      (FinishLogin demoDeps (demoLogin 6) loginNoSignerWorld).1
        = Except.error { code := Code.Internal, err := "signing key unavailable" } ∧
      (FinishLogin demoDeps (demoLogin 6) loginNoSignerWorld).2.st.tokens = []) ∧
    (demoDepsNoLogin.dbFirstByCredentialID (demoLogin 6).CredentialId loginWorld.st
        = ((demoUser 5, none), loginWorld.st) ∧
      (FinishLogin demoDepsNoLogin (demoLogin 6) loginWorld).1
        = Except.error { code := Code.Internal, err := "login refused" } ∧
      (FinishLogin demoDepsNoLogin (demoLogin 6) loginWorld).2.st.tokens
        = [("user-1", "old-token")]) :=
  ⟨⟨rfl, rfl,
      ((finishLogin_not_atomic demoDeps (demoLogin 6) loginNoSignerWorld (demoUser 5)
        loginNoSignerWorld.st rfl rfl).2 "signing key unavailable" loginNoSignerWorld.st
        { loginNoSignerWorld.st with tokens := [] } "" rfl rfl).1,
      congrArg (fun x => x.st.tokens)
        ((finishLogin_not_atomic demoDeps (demoLogin 6) loginNoSignerWorld (demoUser 5)
          loginNoSignerWorld.st rfl rfl).2 "signing key unavailable" loginNoSignerWorld.st
          { loginNoSignerWorld.st with tokens := [] } "" rfl rfl).2⟩,
    ⟨rfl,
      ((finishLogin_not_atomic demoDepsNoLogin (demoLogin 6) loginWorld (demoUser 5)
        loginWorld.st rfl rfl).1 "login refused" loginWorld.st rfl).1,
      congrArg (fun x => x.st.tokens)
        ((finishLogin_not_atomic demoDepsNoLogin (demoLogin 6) loginWorld (demoUser 5)
          loginWorld.st rfl rfl).1 "login refused" loginWorld.st rfl).2⟩⟩

/-- C4, as stated, fails: the stored credential has `SignCount` 5 and the request
reports counter 5 (not incremented) with a valid signature; `FinishLogin` returns
a freshly minted token, and the identical request repeated on the resulting
world is accepted again. -/
theorem finishLogin_accepts_replayed_counter :
    demoDeps.dbFirstByCredentialID (demoLogin 5).CredentialId loginWorld.st
      = ((demoUser 5, none), loginWorld.st) ∧
    demoDeps.extractSignCount (demoLogin 5).AuthenticatorData = 5 ∧
    (demoUser 5).SignCount = 5 ∧
    demoDeps.extractSignCount (demoLogin 5).AuthenticatorData ≤ (demoUser 5).SignCount ∧
    (FinishLogin demoDeps (demoLogin 5) loginWorld).1
      = Except.ok { Msg := { AccessToken := "jwt-for-user-1" },
                    Header := [("Set-Cookie", "access_token=jwt-for-user-1")] } ∧
    (FinishLogin demoDeps (demoLogin 5) (FinishLogin demoDeps (demoLogin 5) loginWorld).2).1
      = Except.ok { Msg := { AccessToken := "jwt-for-user-1" },
                    Header := [("Set-Cookie", "access_token=jwt-for-user-1")] } :=
  ⟨rfl, rfl, rfl, Nat.le_of_eq rfl, rfl, rfl⟩

/-- C4, amended: `FinishLogin` never looks at the signal counter.  Its result,
final state and calls are the same whatever `extractSignCount` would report; and
a request whose reported counter is less than or equal to the stored `SignCount`
is accepted with the minted token as soon as the lookup, the signature
verification, `LoginAsWebAuthAdmin` and `GenerateJWTPair` succeed, the calls made
being exactly the lookup, the verification, the login, the revocation, the
minting and the cookie (no call of `extractSignCount`). -/
theorem finishLogin_ignores_sign_count (d : Deps σ) (req : FinishLoginRequest) (w : World σ)
    (user : DbUser) (s1 s2 s3 : σ) (token : String)
    (hq : d.dbFirstByCredentialID req.CredentialId w.st = ((user, none), s1))
    (hv : d.verifySignature user.PublicKey req.AuthenticatorData req.ClientDataJson
            req.Signature = (true, none))
    (hl : d.loginAsWebAuthAdmin user user.UserId s1 = (none, s2))
    (hg : d.generateJWTPair user.UserId (d.revokeJWTByUserId user.UserId s2)
            = ((token, none), s3))
    (_hreplay : d.extractSignCount req.AuthenticatorData ≤ user.SignCount) :
    (∀ f : Bytes → Nat,
      FinishLogin { d with extractSignCount := f } req w = FinishLogin d req w) ∧
    (FinishLogin d req w).1
      = Except.ok { Msg := { AccessToken := token },
                    Header := [("Set-Cookie", d.getConnectRpcAccessTokenCookie token)] } ∧
    (FinishLogin d req w).2
      = { st := s3,
          log := w.log ++
            [Event.dbFirst req.CredentialId user none,
             Event.verifySignature user.PublicKey req.AuthenticatorData req.ClientDataJson
               req.Signature true none,
             Event.loginAsWebAuthAdmin user user.UserId none,
             Event.revokeJWTByUserId user.UserId,
             Event.generateJWTPair user.UserId token none,
             Event.getConnectRpcAccessTokenCookie token
               (d.getConnectRpcAccessTokenCookie token)] } := by
  refine ⟨fun f => rfl, ?_, ?_⟩
  · simp [FinishLogin, callDbFirst, hq, callVerifySignature, hv, World.record,
      callLoginAsWebAuthAdmin, hl, callRevokeJWTByUserId, callGenerateJWTPair, hg,
      callGetCookie, NewResponse, Response.headerSet]
  · simp [FinishLogin, callDbFirst, hq, callVerifySignature, hv, World.record,
      callLoginAsWebAuthAdmin, hl, callRevokeJWTByUserId, callGenerateJWTPair, hg,
      callGetCookie]

/-- Witness for the amended C4: a request reporting counter 3 against the stored
counter 5. -/
theorem finishLogin_ignores_sign_count_witness :
    demoDeps.dbFirstByCredentialID (demoLogin 3).CredentialId loginWorld.st
      = ((demoUser 5, none), loginWorld.st) ∧
    demoDeps.verifySignature (demoUser 5).PublicKey (demoLogin 3).AuthenticatorData
      (demoLogin 3).ClientDataJson (demoLogin 3).Signature = (true, none) ∧
    demoDeps.loginAsWebAuthAdmin (demoUser 5) (demoUser 5).UserId loginWorld.st
      = (none, loginWorld.st) ∧
    demoDeps.generateJWTPair (demoUser 5).UserId
        (demoDeps.revokeJWTByUserId (demoUser 5).UserId loginWorld.st)
      = (("jwt-for-user-1", none), loggedInState) ∧
    demoDeps.extractSignCount (demoLogin 3).AuthenticatorData ≤ (demoUser 5).SignCount ∧
    (FinishLogin demoDeps (demoLogin 3) loginWorld).1
      = Except.ok { Msg := { AccessToken := "jwt-for-user-1" },
                    Header := [("Set-Cookie",
                      demoDeps.getConnectRpcAccessTokenCookie "jwt-for-user-1")] } :=
  ⟨rfl, rfl, rfl, rfl, by decide,
    (finishLogin_ignores_sign_count demoDeps (demoLogin 3) loginWorld (demoUser 5)
      loginWorld.st loginWorld.st loggedInState "jwt-for-user-1" rfl rfl rfl rfl
      (by decide)).2.1⟩

/-! ## FinishRegistration -/

/-- C9: when the attestation object parses, the record passed to
`CreateWebAuthnAdmin` has `CredentialID` equal to the request's credential ID,
`PublicKey` equal to the key returned by the parser, `SignCount` and
`AuthenticatorAAGUID` equal to what `extractSignCount` and `extractAAGUID` return
on the parsed authenticator data, and it is the only record submitted.  When the
creation succeeds, `GenerateJWTPair` is called once, for exactly the identity
that the creation returned, and when minting succeeds the minted token is the
response's `AccessToken` (and the source of its Set-Cookie header). -/
theorem finishRegistration_record_and_token (d : Deps σ) (req : FinishRegistrationRequest)
    (w : World σ) (ad pk : Bytes)
    (hp : d.parseAttestationObject req.AttestationObject = (ad, pk, none)) :
    ∃ user : DbUser,
      user.CredentialID = req.CredentialId ∧
      user.PublicKey = pk ∧
      user.SignCount = d.extractSignCount ad ∧
      user.AuthenticatorAAGUID = d.extractAAGUID ad ∧
      (∃ rest, (FinishRegistration d req w).2.log
          = w.log ++
              [Event.println [Printed.str "FinishRegistration"],
               Event.println [Printed.bytes req.AttestationObject],
               Event.parseAttestationObject req.AttestationObject ad pk none,
               Event.extractSignCount ad (d.extractSignCount ad),
               Event.extractAAGUID ad (d.extractAAGUID ad),
               Event.createWebAuthnAdmin user (d.createWebAuthnAdmin user w.st).1.1
                 (d.createWebAuthnAdmin user w.st).1.2] ++ rest ∧
          ∀ ev ∈ rest, ∀ u i x, ev ≠ Event.createWebAuthnAdmin u i x) ∧
      (∀ (id : Identity) (s1 s2 : σ) (token : String) (gerr : Option GoError),
        d.createWebAuthnAdmin user w.st = ((id, none), s1) →
        d.generateJWTPair id s1 = ((token, gerr), s2) →
        (∃ rest, (FinishRegistration d req w).2.log
            = w.log ++
                [Event.println [Printed.str "FinishRegistration"],
                 Event.println [Printed.bytes req.AttestationObject],
                 Event.parseAttestationObject req.AttestationObject ad pk none,
                 Event.extractSignCount ad (d.extractSignCount ad),
                 Event.extractAAGUID ad (d.extractAAGUID ad),
                 Event.createWebAuthnAdmin user id none,
                 Event.generateJWTPair id token gerr] ++ rest ∧
            ∀ ev ∈ rest, ∀ u t x, ev ≠ Event.generateJWTPair u t x) ∧
        (gerr = none →
          (FinishRegistration d req w).1
            = Except.ok { Msg := { AccessToken := token },
                          Header := [("Set-Cookie", d.getConnectRpcAccessTokenCookie token)] } ∧
          (∀ res, (FinishRegistration d req w).1 = Except.ok res →
            res.Msg.AccessToken = token ∧
            res.headerGet "Set-Cookie" = some (d.getConnectRpcAccessTokenCookie token)))) := by
  refine ⟨{ UserId := "", CredentialID := req.CredentialId, PublicKey := pk,
            SignCount := d.extractSignCount ad, AuthenticatorAAGUID := d.extractAAGUID ad },
    rfl, rfl, rfl, rfl, ?_, ?_⟩
  · generalize hu : DbUser.mk "" req.CredentialId pk (d.extractSignCount ad)
      (d.extractAAGUID ad) = user
    rcases hc : d.createWebAuthnAdmin user w.st with ⟨⟨id, cerr⟩, s1⟩
    rcases hg : d.generateJWTPair id s1 with ⟨⟨token, gerr⟩, s2⟩
    cases cerr with
    | some e =>
      refine ⟨[], ?_, by simp⟩
      simp [FinishRegistration, println, World.record, callParseAttestationObject, hp,
        callExtractSignCount, callExtractAAGUID, callCreateWebAuthnAdmin, hu, hc]
    | none =>
      cases gerr with
      | some e =>
        refine ⟨[Event.generateJWTPair id token (some e),
          Event.println [Printed.str "Error generating JWT:", Printed.err e]], ?_, by simp⟩
        simp [FinishRegistration, println, World.record, callParseAttestationObject, hp,
          callExtractSignCount, callExtractAAGUID, callCreateWebAuthnAdmin, hu, hc,
          callGenerateJWTPair, hg]
      | none =>
        refine ⟨[Event.generateJWTPair id token none, Event.println [Printed.str token],
          Event.getConnectRpcAccessTokenCookie token (d.getConnectRpcAccessTokenCookie token)],
          ?_, by simp⟩
        simp [FinishRegistration, println, World.record, callParseAttestationObject, hp,
          callExtractSignCount, callExtractAAGUID, callCreateWebAuthnAdmin, hu, hc,
          callGenerateJWTPair, hg, callGetCookie]
  · intro id s1 s2 token gerr hc hg
    cases gerr with
    | some e =>
      refine ⟨⟨[Event.println [Printed.str "Error generating JWT:", Printed.err e]], ?_, by simp⟩,
        ?_⟩
      · simp [FinishRegistration, println, World.record, callParseAttestationObject, hp,
          callExtractSignCount, callExtractAAGUID, callCreateWebAuthnAdmin, hc,
          callGenerateJWTPair, hg]
      · intro h
        cases h
    | none =>
      have hres : (FinishRegistration d req w).1
          = Except.ok { Msg := { AccessToken := token },
                        Header := [("Set-Cookie", d.getConnectRpcAccessTokenCookie token)] } := by
        simp [FinishRegistration, println, World.record, callParseAttestationObject, hp,
          callExtractSignCount, callExtractAAGUID, callCreateWebAuthnAdmin, hc,
          callGenerateJWTPair, hg, callGetCookie, NewResponse, Response.headerSet]
      refine ⟨⟨[Event.println [Printed.str token],
          Event.getConnectRpcAccessTokenCookie token (d.getConnectRpcAccessTokenCookie token)],
          ?_, by simp⟩, ?_⟩
      · simp [FinishRegistration, println, World.record, callParseAttestationObject, hp,
          callExtractSignCount, callExtractAAGUID, callCreateWebAuthnAdmin, hc,
          callGenerateJWTPair, hg, callGetCookie]
      · intro _
        refine ⟨hres, ?_⟩
        intro res hr
        rw [hres] at hr
        cases hr
        simp [Response.headerGet]

/-- Witness for C9: the concrete registration request parses, and the record
submitted carries its credential ID, key, counter and AAGUID. -/
theorem finishRegistration_record_and_token_witness :
    demoDeps.parseAttestationObject demoRegistration.AttestationObject
      = (demoAuthData 0, [4, 5], none) ∧
    ∃ user : DbUser,
      user.CredentialID = demoRegistration.CredentialId ∧
      user.PublicKey = [4, 5] ∧
      user.SignCount = demoDeps.extractSignCount (demoAuthData 0) ∧
      user.AuthenticatorAAGUID = demoDeps.extractAAGUID (demoAuthData 0) :=
  ⟨rfl,
    match finishRegistration_record_and_token demoDeps demoRegistration emptyWorld
      (demoAuthData 0) [4, 5] rfl with
    | ⟨u, h1, h2, h3, h4, _⟩ => ⟨u, h1, h2, h3, h4⟩⟩

/-- C6, as stated, fails: with a failing token signer `FinishRegistration` returns
an error although `CreateWebAuthnAdmin` has been executed successfully, and the
new credential is in the store afterwards. -/
theorem finishRegistration_error_after_persist :
    (FinishRegistration demoDeps demoRegistration noSignerWorld).1
      = Except.error { code := Code.Internal, err := "signing key unavailable" } ∧
    Event.createWebAuthnAdmin demoSubmitted "user-1" none
      ∈ (FinishRegistration demoDeps demoRegistration noSignerWorld).2.log ∧
    noSignerWorld.st.users = [] ∧
    (FinishRegistration demoDeps demoRegistration noSignerWorld).2.st.users = [demoUser 0] := by
  refine ⟨rfl, ?_, rfl, rfl⟩
  have h : (FinishRegistration demoDeps demoRegistration noSignerWorld).2.log
      = [Event.println [Printed.str "FinishRegistration"],
         Event.println [Printed.bytes demoRegistration.AttestationObject],
         Event.parseAttestationObject demoRegistration.AttestationObject (demoAuthData 0)
           [4, 5] none,
         Event.extractSignCount (demoAuthData 0) 0,
         Event.extractAAGUID (demoAuthData 0) (List.replicate 16 9),
         Event.createWebAuthnAdmin demoSubmitted "user-1" none,
         Event.generateJWTPair "user-1" "" (some "signing key unavailable"),
         Event.println [Printed.str "Error generating JWT:",
           Printed.err "signing key unavailable"]] := rfl
  rw [h]
  simp

/-- C6, amended: an error of `FinishRegistration` leaves nothing persisted when it
comes from the attestation parser or from the creation itself.  (a) If the
attestation object does not parse, the InvalidArgument error is returned,
`CreateWebAuthnAdmin` is not called and the state is unchanged.  (b) If
`CreateWebAuthnAdmin` fails with `e`, the Internal error wrapping `e` is returned
and that failed call is the only creation attempted.  (c) If the creation
succeeds and `GenerateJWTPair` fails with `e`, the Internal error wrapping `e` is
returned after `CreateWebAuthnAdmin` has been executed successfully: the final
state is the one minting left after the creation, nothing undoes the creation. -/
theorem finishRegistration_failure_cases (d : Deps σ) (req : FinishRegistrationRequest)
    (w : World σ) (ad pk : Bytes) :
    (∀ e : GoError, d.parseAttestationObject req.AttestationObject = (ad, pk, some e) →
      (FinishRegistration d req w).1
        = Except.error { code := Code.InvalidArgument, err := "invalid attestation object" } ∧
      (FinishRegistration d req w).2
        = { st := w.st,
            log := w.log ++
              [Event.println [Printed.str "FinishRegistration"],
               Event.println [Printed.bytes req.AttestationObject],
               Event.parseAttestationObject req.AttestationObject ad pk (some e)] }) ∧
    (∀ (e : GoError) (id : Identity) (s1 : σ),
      d.parseAttestationObject req.AttestationObject = (ad, pk, none) →
      d.createWebAuthnAdmin
          (DbUser.mk "" req.CredentialId pk (d.extractSignCount ad) (d.extractAAGUID ad)) w.st
        = ((id, some e), s1) →
      (FinishRegistration d req w).1 = Except.error { code := Code.Internal, err := e } ∧
      (FinishRegistration d req w).2
        = { st := s1,
            log := w.log ++
              [Event.println [Printed.str "FinishRegistration"],
               Event.println [Printed.bytes req.AttestationObject],
               Event.parseAttestationObject req.AttestationObject ad pk none,
               Event.extractSignCount ad (d.extractSignCount ad),
               Event.extractAAGUID ad (d.extractAAGUID ad),
               Event.createWebAuthnAdmin
                 (DbUser.mk "" req.CredentialId pk (d.extractSignCount ad) (d.extractAAGUID ad))
                 id (some e)] }) ∧
    (∀ (e : GoError) (id : Identity) (s1 s2 : σ) (token : String),
      d.parseAttestationObject req.AttestationObject = (ad, pk, none) →
      d.createWebAuthnAdmin
          (DbUser.mk "" req.CredentialId pk (d.extractSignCount ad) (d.extractAAGUID ad)) w.st
        = ((id, none), s1) →
      d.generateJWTPair id s1 = ((token, some e), s2) →
      (FinishRegistration d req w).1 = Except.error { code := Code.Internal, err := e } ∧
      (FinishRegistration d req w).2
        = { st := s2,
            log := w.log ++
              [Event.println [Printed.str "FinishRegistration"],
               Event.println [Printed.bytes req.AttestationObject],
               Event.parseAttestationObject req.AttestationObject ad pk none,
               Event.extractSignCount ad (d.extractSignCount ad),
               Event.extractAAGUID ad (d.extractAAGUID ad),
               Event.createWebAuthnAdmin
                 (DbUser.mk "" req.CredentialId pk (d.extractSignCount ad) (d.extractAAGUID ad))
                 id none,
               Event.generateJWTPair id token (some e),
               Event.println [Printed.str "Error generating JWT:", Printed.err e]] }) := by
  refine ⟨?_, ?_, ?_⟩
  · intro e hp
    simp [FinishRegistration, println, World.record, callParseAttestationObject, hp]
  · intro e id s1 hp hc
    simp [FinishRegistration, println, World.record, callParseAttestationObject, hp,
      callExtractSignCount, callExtractAAGUID, callCreateWebAuthnAdmin, hc]
  · intro e id s1 s2 token hp hc hg
    simp [FinishRegistration, println, World.record, callParseAttestationObject, hp,
      callExtractSignCount, callExtractAAGUID, callCreateWebAuthnAdmin, hc,
      callGenerateJWTPair, hg]

/-- Witness for the amended C6: an unparseable attestation object on the empty
store, a duplicate credential, and a failing signer. -/
theorem finishRegistration_failure_cases_witness :
    (demoDeps.parseAttestationObject demoShortRegistration.AttestationObject
        = ([], [], some "attestation object too short") ∧
      (FinishRegistration demoDeps demoShortRegistration emptyWorld).1
        = Except.error { code := Code.InvalidArgument, err := "invalid attestation object" }) ∧
    (demoDeps.parseAttestationObject demoRegistration.AttestationObject
        = (demoAuthData 0, [4, 5], none) ∧
      demoDeps.createWebAuthnAdmin
          (DbUser.mk "" demoRegistration.CredentialId [4, 5]
            (demoDeps.extractSignCount (demoAuthData 0))
            (demoDeps.extractAAGUID (demoAuthData 0))) takenWorld.st
        = (("", some "duplicate credential"), takenWorld.st) ∧
      (FinishRegistration demoDeps demoRegistration takenWorld).1
        = Except.error { code := Code.Internal, err := "duplicate credential" }) ∧
    (demoDeps.createWebAuthnAdmin
          (DbUser.mk "" demoRegistration.CredentialId [4, 5]
            (demoDeps.extractSignCount (demoAuthData 0))
            (demoDeps.extractAAGUID (demoAuthData 0))) noSignerWorld.st
        = (("user-1", none), { noSignerWorld.st with users := [demoUser 0] }) ∧
      demoDeps.generateJWTPair "user-1" { noSignerWorld.st with users := [demoUser 0] }
        = (("", some "signing key unavailable"),
            { noSignerWorld.st with users := [demoUser 0] }) ∧
      (FinishRegistration demoDeps demoRegistration noSignerWorld).1
        = Except.error { code := Code.Internal, err := "signing key unavailable" }) :=
  ⟨⟨rfl,
      ((finishRegistration_failure_cases demoDeps demoShortRegistration emptyWorld [] []).1
        "attestation object too short" rfl).1⟩,
    ⟨rfl, rfl,
      ((finishRegistration_failure_cases demoDeps demoRegistration takenWorld (demoAuthData 0)
        [4, 5]).2.1 "duplicate credential" "" takenWorld.st rfl rfl).1⟩,
    ⟨rfl, rfl,
      ((finishRegistration_failure_cases demoDeps demoRegistration noSignerWorld (demoAuthData 0)
        [4, 5]).2.2 "signing key unavailable" "user-1"
        { noSignerWorld.st with users := [demoUser 0] }
        { noSignerWorld.st with users := [demoUser 0] } "" rfl rfl rfl).1⟩⟩

/-- C5, as stated, fails: no challenge has ever been issued (no call at all has
been made on the empty store) and the request's client data is empty, yet
`FinishRegistration` persists the credential and returns a minted token; the same
happens after `BeginRegistration` has issued a challenge that the client data
`[0]` does not contain. -/
theorem finishRegistration_accepts_without_challenge :
    emptyWorld.log = [] ∧
    demoRegistration.ClientDataJson = [] ∧
    (FinishRegistration demoDeps demoRegistration emptyWorld).1
      = Except.ok { Msg := { AccessToken := "jwt-for-user-1" },
                    Header := [("Set-Cookie", "access_token=jwt-for-user-1")] } ∧
    (FinishRegistration demoDeps demoRegistration emptyWorld).2.st = registeredState ∧
    (BeginRegistration demoDeps { raw := [] } emptyWorld).1
      = Except.ok { Msg := { Challenge := (List.range 32).map (fun i => i + 1),
                             RpId := "localhost" },
                    Header := [] } ∧
    (FinishRegistration demoDeps { demoRegistration with ClientDataJson := [0] }
        (BeginRegistration demoDeps { raw := [] } emptyWorld).2).1
      = Except.ok { Msg := { AccessToken := "jwt-for-user-1" },
                    Header := [("Set-Cookie", "access_token=jwt-for-user-1")] } ∧
    (FinishRegistration demoDeps { demoRegistration with ClientDataJson := [0] }
        (BeginRegistration demoDeps { raw := [] } emptyWorld).2).2.st = registeredState :=
  ⟨rfl, rfl, rfl, rfl, rfl, rfl, rfl⟩

/-- C5, amended: `FinishRegistration` makes no challenge cross-check.  It does not
read `ClientDataJson` (requests that differ only there give the same result,
state and calls), it makes no call to the entropy source or to the credential
lookup, and `BeginRegistration` keeps no record of the challenge it returns: its
whole effect on the world is the single `rand.Read`. -/
theorem finishRegistration_ignores_client_data (d : Deps σ) (req : FinishRegistrationRequest)
    (r : BeginRegistrationRequest) (w : World σ) :
    (∀ cdj : Bytes,
      FinishRegistration d { req with ClientDataJson := cdj } w = FinishRegistration d req w) ∧
    (∀ (f : Nat → σ → (Bytes × Option GoError) × σ)
        (q : Bytes → σ → (DbUser × Option GoError) × σ),
      FinishRegistration { d with randRead := f, dbFirstByCredentialID := q } req w
        = FinishRegistration d req w) ∧
    (BeginRegistration d r w).2 = (callRandRead d 32 w).2 := by
  refine ⟨fun _ => rfl, fun _ _ => rfl, ?_⟩
  have hw := generateChallenge_snd d w
  cases h : (generateChallenge d w).1.2 <;> simp [BeginRegistration, h, hw, callRandRead]

end AuthService
